import Mathlib

/-!
Verification of the yubiswitch utility (src/yubiswitch.py) against its
specification.  The script toggles USB HID binding for YubiKey devices by
scanning the sysfs device tree and writing identifiers to the usbhid
driver's bind/unbind control files.

The filesystem is modelled abstractly: each device-tree entry records the
outcome of reading its manufacturer file, its product file and of listing
its directory (each an `Except` value, since any of those operations can
fail with an OS error).  The driver directory is an association list from
identifiers to the outcome of calling lstat on them.  Writes to the
bind/unbind control files are recorded as explicit `WriteOp` values, and a
separate kernel model (`applyWriteB`) states their effect on the driver
state.
-/

deriving instance DecidableEq for Except

namespace Yubiswitch

/-- OS-level error classes relevant to the script: Python distinguishes
`FileNotFoundError` (and the discovery code catches all of `OSError`);
permission errors and other I/O errors are modelled separately so the
distinction the spec talks about is expressible. -/
inductive IOErr where
  | notFound
  | permissionDenied
  | otherErr
deriving DecidableEq

/-- The `YubiKey` class of the script: one discovered sub-device, with its
bus-topology identifier (`dev_id`) and the parent's product string. -/
structure YubiKey where
  dev_id : String
  product : String
deriving DecidableEq

/-- Python `str.strip()`: remove whitespace from both ends of a string. -/
def pyStrip (s : String) : String :=
  String.mk (((s.data.dropWhile Char.isWhitespace).reverse.dropWhile
    Char.isWhitespace).reverse)

/-- Python `repr` of a single-quoted string (no escaping needed for the
identifiers that occur here). -/
def pyQuote (s : String) : String :=
  String.singleton (Char.ofNat 39) ++ s ++ String.singleton (Char.ofNat 39)

/-- `YubiKey.__repr__` from the script. -/
def YubiKey.reprString (k : YubiKey) : String :=
  "<YubiKey (dev_id=" ++ pyQuote k.dev_id ++ ", product=" ++
    pyQuote k.product ++ ")>"

/-! ## Control component -/

/-- The driver directory `/sys/bus/usb/drivers/usbhid`, modelled as an
association list: for each present entry name, the outcome of `os.lstat`
on it.  Names not in the list do not exist (lstat raises not-found). -/
abbrev DriverDir := List (String × Except IOErr Unit)

/-- `os.lstat(os.path.join(driver_root, dev_id))`: succeed or fail
according to the driver directory model; an absent entry raises
`FileNotFoundError`. -/
def lstatDrv (drv : DriverDir) (id : String) : Except IOErr Unit :=
  (drv.lookup id).getD (Except.error IOErr.notFound)

/-- `YubiKey.is_active`: `bool(os.lstat(...))` (always true when lstat
succeeds), catching only `FileNotFoundError` and turning it into `False`;
every other OS error propagates. -/
def is_active (drv : DriverDir) (id : String) : Except IOErr Bool :=
  match lstatDrv drv id with
  | Except.ok _ => Except.ok true
  | Except.error IOErr.notFound => Except.ok false
  | Except.error e => Except.error e

/-- A write to one of the two driver control files. -/
inductive WriteOp where
  | bind (id : String)
  | unbind (id : String)
deriving DecidableEq

/-- State the control operations run against: the driver directory plus a
possible failure of opening/writing each control file. -/
structure CtrlState where
  drv : DriverDir
  bindErr : Option IOErr
  unbindErr : Option IOErr

/-- `YubiKey.activate`: return `False` without writing when already
active; otherwise write the identifier to the bind control file and
return `True`.  The returned list records the writes performed. -/
def activate (st : CtrlState) (id : String) : Except IOErr (Bool × List WriteOp) :=
  match is_active st.drv id with
  | Except.error e => Except.error e
  | Except.ok true => Except.ok (false, [])
  | Except.ok false =>
    match st.bindErr with
    | some e => Except.error e
    | none => Except.ok (true, [WriteOp.bind id])

/-- `YubiKey.deactivate`: symmetric to `activate`, writing to the unbind
control file. -/
def deactivate (st : CtrlState) (id : String) : Except IOErr (Bool × List WriteOp) :=
  match is_active st.drv id with
  | Except.error e => Except.error e
  | Except.ok false => Except.ok (false, [])
  | Except.ok true =>
    match st.unbindErr with
    | some e => Except.error e
    | none => Except.ok (true, [WriteOp.unbind id])

/-! ## Discovery component -/

/-- One entry of `os.listdir` under a parent device directory: its name
and whether it is itself a directory. -/
structure SubEntry where
  name : String
  isDir : Bool
deriving DecidableEq

/-- One entry under the device-tree root `/sys/bus/usb/devices/`: the
entry name and the outcomes of reading its manufacturer file, reading its
product file, and listing its directory. -/
structure DevEntry where
  name : String
  manufacturer : Except IOErr String
  product : Except IOErr String
  listing : Except IOErr (List SubEntry)
deriving DecidableEq

abbrev DevTree := List DevEntry

/-- The character set `set('0123456789-:.')` used to filter sub-device
names. -/
def isSubdevChar (c : Char) : Bool :=
  "0123456789-:.".data.contains c

/-- `set(subdev).issubset(set('0123456789-:.'))`: every character of the
name belongs to the allowed set. -/
def isSubdevName (s : String) : Bool :=
  s.data.all isSubdevChar

/-- One iteration of the `get_yubikeys` loop body for a single device-tree
entry: any OS error reading the manufacturer file is caught and the entry
skipped (`except (OSError, IOError): continue`); a manufacturer exactly
equal to the string Yubico followed by a newline makes the entry a parent
device, whose product file is read and stripped and whose directory is
listed (both failures propagate); each sub-entry that is a directory and
whose name passes the character filter yields one `YubiKey`. -/
def scanEntry (e : DevEntry) : Except IOErr (List YubiKey) :=
  match e.manufacturer with
  | Except.error _ => Except.ok []
  | Except.ok m =>
    if m = "Yubico\n" then
      match e.product with
      | Except.error err => Except.error err
      | Except.ok p =>
        match e.listing with
        | Except.error err => Except.error err
        | Except.ok subs =>
          Except.ok (subs.filterMap (fun s =>
            if s.isDir && isSubdevName s.name then
              some ⟨s.name, pyStrip p⟩ else none))
    else Except.ok []

/-- `get_yubikeys`: scan the device-tree entries in order, accumulating
discovered keys; the first propagating error aborts the whole scan and no
partial list is returned. -/
def get_yubikeys (t : DevTree) : Except IOErr (List YubiKey) :=
  match t with
  | [] => Except.ok []
  | e :: rest =>
    match scanEntry e with
    | Except.error err => Except.error err
    | Except.ok ks =>
      match get_yubikeys rest with
      | Except.error err => Except.error err
      | Except.ok more => Except.ok (ks ++ more)

/-- The device-tree root path used by the script. -/
def basepath : String := "/sys/bus/usb/devices/"

/-- The `get_yubikeys` loop body again, with the debug-conditional trace
lines it prints recorded alongside the result. -/
def scanEntryDbg (debug : Bool) (e : DevEntry) :
    Except IOErr (List YubiKey) × List String :=
  let mpath := basepath ++ e.name ++ "/manufacturer"
  let t0 := if debug then ["Opening manufacturer file " ++ mpath] else []
  match e.manufacturer with
  | Except.error _ => (Except.ok [], t0)
  | Except.ok m =>
    if m = "Yubico\n" then
      let t1 := t0 ++ (if debug then
        ["Found Yubico device at " ++ mpath ++ ", scanning sub-devices"] else [])
      let ppath := basepath ++ e.name ++ "/product"
      let t2 := t1 ++ (if debug then ["Opening product file " ++ ppath] else [])
      match e.product with
      | Except.error err => (Except.error err, t2)
      | Except.ok p =>
        match e.listing with
        | Except.error err => (Except.error err, t2)
        | Except.ok subs =>
          (Except.ok (subs.filterMap (fun s =>
            if s.isDir && isSubdevName s.name then
              some (⟨s.name, pyStrip p⟩ : YubiKey) else none)), t2)
    else (Except.ok [], t0)

/-- The traced scan over the whole tree (without the initial banner). -/
def get_yubikeysDbgAux (debug : Bool) :
    DevTree → Except IOErr (List YubiKey) × List String
  | [] => (Except.ok [], [])
  | e :: rest =>
    let r := scanEntryDbg debug e
    match r.1 with
    | Except.error err => (Except.error err, r.2)
    | Except.ok ks =>
      let r2 := get_yubikeysDbgAux debug rest
      match r2.1 with
      | Except.error err => (Except.error err, r.2 ++ r2.2)
      | Except.ok more => (Except.ok (ks ++ more), r.2 ++ r2.2)

/-- `get_yubikeys(debug=...)` together with its diagnostic output. -/
def get_yubikeysDbg (debug : Bool) (t : DevTree) :
    Except IOErr (List YubiKey) × List String :=
  let r := get_yubikeysDbgAux debug t
  (r.1, (if debug then ["Scanning " ++ basepath] else []) ++ r.2)

/-! ## The main command loops -/

/-- Python `str.format` with `:<10`: left-justify in a field of width
10. -/
def padTo10 (s : String) : String :=
  s ++ String.mk (List.replicate (10 - s.length) (Char.ofNat 32))

/-- Python rendering of a bool. -/
def pyBool (b : Bool) : String := if b then "True" else "False"

/-- One output row of the `list` command. -/
def listRow (i : Nat) (k : YubiKey) (active : Bool) : String :=
  toString i ++ ") " ++ padTo10 k.dev_id ++ " " ++ k.product ++
    " (active=" ++ pyBool active ++ ")"

/-- The `list` loop over discovered keys (1-indexed): rows printed so far
together with the error that aborted the loop, if any. -/
def listRows (drv : DriverDir) (i : Nat) :
    List YubiKey → List String × Option IOErr
  | [] => ([], none)
  | k :: rest =>
    match is_active drv k.dev_id with
    | Except.error e => ([], some e)
    | Except.ok a =>
      let r := listRows drv (i + 1) rest
      (listRow i k a :: r.1, r.2)

/-- The `list` command: discover, then print one row per key. -/
def runList (t : DevTree) (drv : DriverDir) : List String × Option IOErr :=
  match get_yubikeys t with
  | Except.error e => ([], some e)
  | Except.ok ks => listRows drv 1 ks

/-- The `on` command loop over discovered keys: each key is activated in
turn; an uncaught exception aborts the loop (there is no try/except around
it in `main`).  Returns the status lines printed before the abort and the
aborting error, if any. -/
def runOnAux (st : CtrlState) : List YubiKey → List String × Option IOErr
  | [] => ([], none)
  | k :: rest =>
    match activate st k.dev_id with
    | Except.error e => ([], some e)
    | Except.ok r =>
      let msg := if r.1 then "Yubikey activated successfully: " ++ k.reprString
                 else "Yubikey already active: " ++ k.reprString
      let r2 := runOnAux st rest
      (msg :: r2.1, r2.2)

/-- The `off` command loop, symmetric to `runOnAux`. -/
def runOffAux (st : CtrlState) : List YubiKey → List String × Option IOErr
  | [] => ([], none)
  | k :: rest =>
    match deactivate st k.dev_id with
    | Except.error e => ([], some e)
    | Except.ok r =>
      let msg := if r.1 then "Yubikey deactivated successfully: " ++ k.reprString
                 else "Yubikey already inactive: " ++ k.reprString
      let r2 := runOffAux st rest
      (msg :: r2.1, r2.2)

/-! ## Kernel model of the control writes -/

/-- The driver-state model the spec assumes: the driver state is the set
of bound identifiers (a directory has no duplicate names, so binding an
already-present identifier leaves the state unchanged and unbinding
removes the entry). -/
def applyWriteB (bound : List String) : WriteOp → List String
  | WriteOp.bind id => if id ∈ bound then bound else bound ++ [id]
  | WriteOp.unbind id => bound.filter (fun s => s != id)

/-- A driver directory in which exactly the given identifiers are present
and lstat succeeds on each. -/
def simpleDrv (bound : List String) : DriverDir :=
  bound.map (fun s => (s, Except.ok ()))

/-- `activate` run against the driver-state model, with the recorded
writes applied to produce the successor state. -/
def activateM (bound : List String) (id : String) :
    Except IOErr (Bool × List String) :=
  (activate ⟨simpleDrv bound, none, none⟩ id).map
    (fun r => (r.1, r.2.foldl applyWriteB bound))

/-- `deactivate` run against the driver-state model. -/
def deactivateM (bound : List String) (id : String) :
    Except IOErr (Bool × List String) :=
  (deactivate ⟨simpleDrv bound, none, none⟩ id).map
    (fun r => (r.1, r.2.foldl applyWriteB bound))

/-! ## Concrete scenario data -/

/-- A device-tree entry whose manufacturer file read fails with a
permission error. -/
def entryC5a : DevEntry :=
  ⟨"1-3", Except.error IOErr.permissionDenied, Except.ok "ACME Hub", Except.ok []⟩

/-- An ordinary Yubico entry placed after the unreadable one. -/
def entryC5b : DevEntry :=
  ⟨"1-2", Except.ok "Yubico\n", Except.ok "YubiKey 5",
   Except.ok [⟨"manufacturer", false⟩, ⟨"product", false⟩, ⟨"1-2:1.0", true⟩]⟩

/-- The device tree of the list-command scenario: one entry with
manufacturer Yubico plus newline, product YubiKey 5 and one sub-directory
named 1-2:1.0. -/
def entryC9 : DevEntry :=
  ⟨"1-2", Except.ok "Yubico\n", Except.ok "YubiKey 5",
   Except.ok [⟨"manufacturer", false⟩, ⟨"product", false⟩, ⟨"1-2:1.0", true⟩]⟩

/-- Control state in which every bind write fails with a permission
error. -/
def stC6 : CtrlState := ⟨[], some IOErr.permissionDenied, none⟩

/-- First device of the failing batch. -/
def devC6a : YubiKey := ⟨"1-2:1.0", "YubiKey 5"⟩

/-- Second device of the failing batch. -/
def devC6b : YubiKey := ⟨"1-4:1.0", "YubiKey 4"⟩

/-- A Yubico parent entry with sub-entries exercising every branch of the
sub-device filter: a matching directory, a non-directory, and a directory
whose name has characters outside the allowed set.  Its product string
carries surrounding whitespace to exercise the strip. -/
def subsC3 : List SubEntry :=
  [⟨"1-2:1.0", true⟩, ⟨"manufacturer", false⟩, ⟨"weird_name", true⟩]

/-- Parent entry for the sub-device construction witness. -/
def devC3 : DevEntry :=
  ⟨"1-9", Except.ok "Yubico\n", Except.ok " YubiKey 5C \n", Except.ok subsC3⟩

/-- A matching parent whose product file read fails. -/
def devC7 : DevEntry :=
  ⟨"1-2", Except.ok "Yubico\n", Except.error IOErr.permissionDenied, Except.ok []⟩

/-! ## Theorems -/

/-- C1: activate returns false and performs no write when the device is
already active, and otherwise writes exactly the identifier to the bind
control file and returns true; deactivate is symmetric with the unbind
control file. -/
theorem C1_activate_deactivate_writes (st : CtrlState) (id : String) :
    (is_active st.drv id = Except.ok true →
      activate st id = Except.ok (false, [])) ∧
    (is_active st.drv id = Except.ok false → st.bindErr = none →
      activate st id = Except.ok (true, [WriteOp.bind id])) ∧
    (is_active st.drv id = Except.ok false →
      deactivate st id = Except.ok (false, [])) ∧
    (is_active st.drv id = Except.ok true → st.unbindErr = none →
      deactivate st id = Except.ok (true, [WriteOp.unbind id])) := by
  refine ⟨?_, ?_, ?_, ?_⟩
  · intro h; simp [activate, h]
  · intro h hb; simp [activate, h, hb]
  · intro h; simp [deactivate, h]
  · intro h hu; simp [deactivate, h, hu]

/-- Witness for C1 at concrete active and inactive states. -/
theorem C1_witness :
    activate ⟨[("1-2:1.0", Except.ok ())], none, none⟩ "1-2:1.0"
      = Except.ok (false, []) ∧
    deactivate ⟨[("1-2:1.0", Except.ok ())], none, none⟩ "1-2:1.0"
      = Except.ok (true, [WriteOp.unbind "1-2:1.0"]) ∧
    activate ⟨[], none, none⟩ "1-2:1.0"
      = Except.ok (true, [WriteOp.bind "1-2:1.0"]) ∧
    deactivate ⟨[], none, none⟩ "1-2:1.0" = Except.ok (false, []) :=
  ⟨(C1_activate_deactivate_writes ⟨[("1-2:1.0", Except.ok ())], none, none⟩
      "1-2:1.0").1 rfl,
   (C1_activate_deactivate_writes ⟨[("1-2:1.0", Except.ok ())], none, none⟩
      "1-2:1.0").2.2.2 rfl rfl,
   (C1_activate_deactivate_writes ⟨[], none, none⟩ "1-2:1.0").2.1 rfl rfl,
   (C1_activate_deactivate_writes ⟨[], none, none⟩ "1-2:1.0").2.2.1 rfl⟩

/-- C4: is_active returns true exactly when the driver-directory entry
exists (lstat succeeds); a not-found outcome yields false rather than an
error, and any other lstat failure propagates. -/
theorem C4_is_active_semantics (drv : DriverDir) (id : String) :
    (is_active drv id = Except.ok true ↔ lstatDrv drv id = Except.ok ()) ∧
    (lstatDrv drv id = Except.error IOErr.notFound →
      is_active drv id = Except.ok false) ∧
    (∀ e : IOErr, e ≠ IOErr.notFound → lstatDrv drv id = Except.error e →
      is_active drv id = Except.error e) := by
  refine ⟨?_, ?_, ?_⟩
  · cases h : lstatDrv drv id with
    | ok u => simp [is_active, h]
    | error e => cases e <;> simp [is_active, h]
  · intro h; simp [is_active, h]
  · intro e he h; cases e
    · exact absurd rfl he
    · simp [is_active, h]
    · simp [is_active, h]

/-- Witness for C4 at an existing entry, an absent entry, and an entry on
which lstat fails with a permission error. -/
theorem C4_witness :
    is_active [("1-2:1.0", Except.ok ())] "1-2:1.0" = Except.ok true ∧
    is_active [] "1-2:1.0" = Except.ok false ∧
    is_active [("1-2:1.0", Except.error IOErr.permissionDenied)] "1-2:1.0"
      = Except.error IOErr.permissionDenied :=
  ⟨(C4_is_active_semantics [("1-2:1.0", Except.ok ())] "1-2:1.0").1.mpr rfl,
   (C4_is_active_semantics [] "1-2:1.0").2.1 rfl,
   (C4_is_active_semantics [("1-2:1.0", Except.error IOErr.permissionDenied)]
      "1-2:1.0").2.2 IOErr.permissionDenied (by decide) rfl⟩

/-- C5 counterexample: with a permission error on one entry's manufacturer
file, the scan does not abort — it silently skips that entry and returns
the handles of the remaining entries. -/
theorem C5_counterexample :
    get_yubikeys [entryC5a, entryC5b]
      = Except.ok [⟨"1-2:1.0", "YubiKey 5"⟩] ∧
    get_yubikeys [entryC5a, entryC5b]
      ≠ Except.error IOErr.permissionDenied := by
  exact ⟨by decide, by decide⟩

/-- C5 amended: any OS error while reading an entry's manufacturer file
(permission errors included) causes that entry to be skipped silently; the
scan continues over the remaining entries unchanged. -/
theorem C5_permission_skipped (e : DevEntry) (t : DevTree) (err : IOErr)
    (h : e.manufacturer = Except.error err) :
    get_yubikeys (e :: t) = get_yubikeys t := by
  cases hg : get_yubikeys t <;> simp [get_yubikeys, scanEntry, h, hg]

/-- Witness for the amended C5. -/
theorem C5_witness :
    get_yubikeys [entryC5a, entryC5b] = get_yubikeys [entryC5b] :=
  C5_permission_skipped entryC5a [entryC5b] IOErr.permissionDenied rfl

/-- C6 counterexample: when the bind write fails on the first device of a
two-device batch, no status line is produced for either device — the
error aborts the loop and the second device is never processed (and
symmetrically for a failing unbind write). -/
theorem C6_counterexample :
    runOnAux stC6 [devC6a, devC6b] = ([], some IOErr.permissionDenied) ∧
    (runOnAux stC6 [devC6a, devC6b]).1 = [] ∧
    runOffAux ⟨[("1-2:1.0", Except.ok ()), ("1-4:1.0", Except.ok ())],
        none, some IOErr.permissionDenied⟩ [devC6a, devC6b]
      = ([], some IOErr.permissionDenied) := by
  exact ⟨by decide, by decide, by decide⟩

/-- C6 amended: when a bind or unbind write fails for one device during a
batch, the failure propagates to the invoker and the batch loop aborts —
the remaining devices are not processed and no status lines are
produced. -/
theorem C6_abort_on_failure (st : CtrlState) (k : YubiKey)
    (rest : List YubiKey) (e : IOErr) :
    (activate st k.dev_id = Except.error e →
      runOnAux st (k :: rest) = ([], some e)) ∧
    (deactivate st k.dev_id = Except.error e →
      runOffAux st (k :: rest) = ([], some e)) := by
  constructor
  · intro h; simp [runOnAux, h]
  · intro h; simp [runOffAux, h]

/-- Witness for the amended C6. -/
theorem C6_witness :
    runOnAux stC6 (devC6a :: [devC6b]) = ([], some IOErr.permissionDenied) ∧
    runOffAux ⟨[("1-2:1.0", Except.ok ())], none, some IOErr.otherErr⟩
        (devC6a :: []) = ([], some IOErr.otherErr) :=
  ⟨(C6_abort_on_failure stC6 devC6a [devC6b] IOErr.permissionDenied).1 rfl,
   (C6_abort_on_failure ⟨[("1-2:1.0", Except.ok ())], none,
      some IOErr.otherErr⟩ devC6a [] IOErr.otherErr).2 rfl⟩

/-- C9: on the scenario tree (one Yubico entry 1-2, product YubiKey 5, one
sub-directory 1-2:1.0) with an empty driver directory, the list command
prints exactly one row, with the identifier left-justified in a
10-character field and 1-indexed. -/
theorem C9_list_scenario :
    runList [entryC9] [] = (["1) 1-2:1.0    YubiKey 5 (active=False)"], none) := by
  decide

/-- An entry whose manufacturer differs from Yubico-plus-newline (or whose
manufacturer read failed) contributes nothing to the scan. -/
theorem scanEntry_of_ne (e : DevEntry)
    (h : e.manufacturer ≠ Except.ok "Yubico\n") :
    scanEntry e = Except.ok [] := by
  cases hm : e.manufacturer with
  | error err => simp [scanEntry, hm]
  | ok m =>
    have hne : ¬m = "Yubico\n" := fun hme => h (hme ▸ hm)
    simp [scanEntry, hm, hne]

/-- C2: discovery produces handles only from entries whose manufacturer
file reads exactly the vendor name followed by a newline; every entry
whose manufacturer file is absent, unreadable, or different contributes no
handles. -/
theorem C2_manufacturer_filter :
    (∀ (e : DevEntry) (t : DevTree), e.manufacturer ≠ Except.ok "Yubico\n" →
      get_yubikeys (e :: t) = get_yubikeys t) ∧
    (∀ (t : DevTree) (ks : List YubiKey) (k : YubiKey),
      get_yubikeys t = Except.ok ks → k ∈ ks →
      ∃ e, e ∈ t ∧ e.manufacturer = Except.ok "Yubico\n") := by
  constructor
  · intro e t h
    cases hg : get_yubikeys t <;>
      simp [get_yubikeys, scanEntry_of_ne e h, hg]
  · intro t
    induction t with
    | nil =>
      intro ks k hks hk
      simp [get_yubikeys] at hks
      subst hks
      exact absurd hk (List.not_mem_nil k)
    | cons e rest ih =>
      intro ks k hks hk
      by_cases hm : e.manufacturer = Except.ok "Yubico\n"
      · cases hs : scanEntry e with
        | error err => simp [get_yubikeys, hs] at hks
        | ok ks1 =>
          cases hr : get_yubikeys rest with
          | error err => simp [get_yubikeys, hs, hr] at hks
          | ok more =>
            simp [get_yubikeys, hs, hr] at hks
            subst hks
            rcases List.mem_append.mp hk with h1 | h2
            · exact ⟨e, List.mem_cons_self e rest, hm⟩
            · obtain ⟨e2, he2, hm2⟩ := ih more k hr h2
              exact ⟨e2, List.mem_cons_of_mem e he2, hm2⟩
      · have hskip : get_yubikeys (e :: rest) = get_yubikeys rest := by
          cases hg : get_yubikeys rest <;>
            simp [get_yubikeys, scanEntry_of_ne e hm, hg]
        obtain ⟨e2, he2, hm2⟩ := ih ks k (hskip ▸ hks) hk
        exact ⟨e2, List.mem_cons_of_mem e he2, hm2⟩

/-- Witness for C2: a non-Yubico entry contributes nothing, and the handle
found in a one-entry Yubico tree comes from an entry with the exact
manufacturer string. -/
theorem C2_witness :
    get_yubikeys [⟨"1-5", Except.ok "Other\n", Except.ok "X", Except.ok []⟩,
        entryC9] = get_yubikeys [entryC9] ∧
    ∃ e, e ∈ [entryC9] ∧ e.manufacturer = Except.ok "Yubico\n" :=
  ⟨C2_manufacturer_filter.1
      ⟨"1-5", Except.ok "Other\n", Except.ok "X", Except.ok []⟩ [entryC9]
      (by decide),
   C2_manufacturer_filter.2 [entryC9] [⟨"1-2:1.0", "YubiKey 5"⟩]
      ⟨"1-2:1.0", "YubiKey 5"⟩ (by decide) (by decide)⟩

/-- Filtering with a boolean guard inside filterMap is filtering then
mapping. -/
theorem filterMap_guard_eq {α β : Type} (P : α → Bool) (f : α → β)
    (l : List α) :
    l.filterMap (fun a => if P a then some (f a) else none)
      = (l.filter P).map f := by
  induction l with
  | nil => rfl
  | cons a l ih =>
    by_cases h : P a <;>
      simp [List.filterMap_cons, List.filter_cons, h, ih]

/-- C3: under a matching parent, discovery constructs exactly one handle
per sub-entry that is a directory with a name drawn from the characters
0-9, hyphen, colon and period - identifier the sub-entry name, display
name the stripped product string; all other sub-entries are excluded.  The
character test accepts exactly that set. -/
theorem C3_subdevice_construction (e : DevEntry) (p : String)
    (subs : List SubEntry)
    (hm : e.manufacturer = Except.ok "Yubico\n")
    (hp : e.product = Except.ok p) (hl : e.listing = Except.ok subs) :
    scanEntry e = Except.ok
      ((subs.filter (fun s => s.isDir && isSubdevName s.name)).map
        (fun s => ⟨s.name, pyStrip p⟩)) ∧
    ∀ c : Char, isSubdevChar c = true ↔
      (c = '0' ∨ c = '1' ∨ c = '2' ∨ c = '3' ∨ c = '4' ∨ c = '5' ∨
       c = '6' ∨ c = '7' ∨ c = '8' ∨ c = '9' ∨ c = '-' ∨ c = ':' ∨
       c = '.') := by
  constructor
  · simp only [scanEntry, hm, hp, hl]
    rw [filterMap_guard_eq]
    simp
  · intro c
    simp [isSubdevChar, String.data]

/-- Witness for C3: the mixed sub-entry list keeps only the directory with
an allowed name, and the product string is stripped. -/
theorem C3_witness :
    scanEntry devC3 = Except.ok [⟨"1-2:1.0", "YubiKey 5C"⟩] ∧
    (isSubdevChar ':' = true) := by
  have h := C3_subdevice_construction devC3 " YubiKey 5C \n" subsC3 rfl rfl rfl
  exact ⟨by rw [h.1]; rfl, (h.2 ':').mpr (by decide)⟩

/-- C7: a failure reading a matching parent's product file, or listing its
directory, propagates out of the scan, and wherever such an entry sits in
the tree the whole scan returns an error — never a partial list. -/
theorem C7_fatal_discovery_errors (e : DevEntry) (err : IOErr) :
    (∀ t : DevTree, e.manufacturer = Except.ok "Yubico\n" →
      e.product = Except.error err →
      get_yubikeys (e :: t) = Except.error err) ∧
    (∀ (t : DevTree) (p : String), e.manufacturer = Except.ok "Yubico\n" →
      e.product = Except.ok p → e.listing = Except.error err →
      get_yubikeys (e :: t) = Except.error err) ∧
    (scanEntry e = Except.error err → ∀ t1 t2 : DevTree,
      ∃ err2 : IOErr, get_yubikeys (t1 ++ e :: t2) = Except.error err2) := by
  refine ⟨?_, ?_, ?_⟩
  · intro t hm hp; simp [get_yubikeys, scanEntry, hm, hp]
  · intro t p hm hp hl; simp [get_yubikeys, scanEntry, hm, hp, hl]
  · intro hs t1 t2
    induction t1 with
    | nil => exact ⟨err, by simp [get_yubikeys, hs]⟩
    | cons a t1 ih =>
      cases ha : scanEntry a with
      | error e2 => exact ⟨e2, by simp [get_yubikeys, ha]⟩
      | ok ks =>
        obtain ⟨err2, herr2⟩ := ih
        exact ⟨err2, by simp [get_yubikeys, ha, herr2]⟩

/-- Witness for C7: a matching parent with an unreadable product file
aborts the scan both at the head of the tree and in the middle of it. -/
theorem C7_witness :
    get_yubikeys [devC7] = Except.error IOErr.permissionDenied ∧
    (∃ err2 : IOErr, get_yubikeys ([entryC9] ++ devC7 :: [entryC5b])
      = Except.error err2) :=
  ⟨(C7_fatal_discovery_errors devC7 IOErr.permissionDenied).1 [] rfl rfl,
   (C7_fatal_discovery_errors devC7 IOErr.permissionDenied).2.2 rfl
      [entryC9] [entryC5b]⟩

/-- Lookup in the driver directory built from a list of bound
identifiers. -/
theorem lookup_simpleDrv (bound : List String) (id : String) :
    (simpleDrv bound).lookup id
      = if id ∈ bound then some (Except.ok ()) else none := by
  induction bound with
  | nil => rfl
  | cons a l ih =>
    by_cases h : id = a
    · subst h; simp [simpleDrv, List.lookup]
    · simp only [simpleDrv] at ih
      simp [simpleDrv, List.lookup, beq_eq_false_iff_ne.mpr h, h, ih]

/-- On the driver-state model, is_active decides membership of the bound
set. -/
theorem is_active_simpleDrv (bound : List String) (id : String) :
    is_active (simpleDrv bound) id = Except.ok (decide (id ∈ bound)) := by
  by_cases h : id ∈ bound <;>
    simp [is_active, lstatDrv, lookup_simpleDrv, h]

/-- C8: under the driver-state model in which a bind write adds the
identifier to the bound set and an unbind write removes it, activate
called twice from an inactive state returns true then false and leaves the
device active after both calls; deactivate called twice from an active
state returns true then false and leaves the device inactive after both
calls. -/
theorem C8_idempotence (id : String) (bound : List String) :
    (id ∉ bound →
      activateM bound id = Except.ok (true, bound ++ [id]) ∧
      id ∈ bound ++ [id] ∧
      activateM (bound ++ [id]) id = Except.ok (false, bound ++ [id])) ∧
    (id ∈ bound →
      deactivateM bound id
        = Except.ok (true, bound.filter (fun s => s != id)) ∧
      id ∉ bound.filter (fun s => s != id) ∧
      deactivateM (bound.filter (fun s => s != id)) id
        = Except.ok (false, bound.filter (fun s => s != id))) := by
  constructor
  · intro h
    refine ⟨?_, ?_, ?_⟩
    · simp [activateM, activate, is_active_simpleDrv, h, applyWriteB,
        Except.map]
    · simp
    · simp [activateM, activate, is_active_simpleDrv, Except.map]
  · intro h
    have hnot : id ∉ bound.filter (fun s => s != id) := by
      intro hmem
      have := (List.mem_filter.mp hmem).2
      simp at this
    refine ⟨?_, hnot, ?_⟩
    · simp [deactivateM, deactivate, is_active_simpleDrv, h, applyWriteB,
        Except.map]
    · simp [deactivateM, deactivate, is_active_simpleDrv, hnot,
        Except.map]

/-- Witness for C8 at a concrete identifier. -/
theorem C8_witness :
    (activateM [] "1-2:1.0" = Except.ok (true, [] ++ ["1-2:1.0"]) ∧
      "1-2:1.0" ∈ [] ++ ["1-2:1.0"] ∧
      activateM ([] ++ ["1-2:1.0"]) "1-2:1.0"
        = Except.ok (false, [] ++ ["1-2:1.0"])) ∧
    (deactivateM ["1-2:1.0"] "1-2:1.0"
        = Except.ok (true, ["1-2:1.0"].filter (fun s => s != "1-2:1.0")) ∧
      "1-2:1.0" ∉ ["1-2:1.0"].filter (fun s => s != "1-2:1.0") ∧
      deactivateM (["1-2:1.0"].filter (fun s => s != "1-2:1.0")) "1-2:1.0"
        = Except.ok (false, ["1-2:1.0"].filter (fun s => s != "1-2:1.0"))) :=
  ⟨(C8_idempotence "1-2:1.0" []).1 (by decide),
   (C8_idempotence "1-2:1.0" ["1-2:1.0"]).2 (by decide)⟩

/-- The traced scan of a single entry computes the same result as the
untraced one. -/
theorem scanEntryDbg_fst (d : Bool) (e : DevEntry) :
    (scanEntryDbg d e).1 = scanEntry e := by
  cases hm : e.manufacturer with
  | error err => simp [scanEntryDbg, scanEntry, hm]
  | ok m =>
    by_cases h : m = "Yubico\n"
    · cases hp : e.product with
      | error err => simp [scanEntryDbg, scanEntry, hm, h, hp]
      | ok p =>
        cases hl : e.listing <;>
          simp [scanEntryDbg, scanEntry, hm, h, hp, hl]
    · simp [scanEntryDbg, scanEntry, hm, h]

/-- The traced scan of a tree computes the same result as the untraced
one. -/
theorem get_yubikeysDbgAux_fst (d : Bool) (t : DevTree) :
    (get_yubikeysDbgAux d t).1 = get_yubikeys t := by
  induction t with
  | nil => rfl
  | cons e rest ih =>
    cases hs : scanEntry e with
    | error err =>
      simp [get_yubikeysDbgAux, get_yubikeys, scanEntryDbg_fst, hs]
    | ok ks =>
      cases hr : get_yubikeys rest with
      | error err =>
        simp [get_yubikeysDbgAux, get_yubikeys, scanEntryDbg_fst, hs,
          hr, ih]
      | ok more =>
        simp [get_yubikeysDbgAux, get_yubikeys, scanEntryDbg_fst, hs,
          hr, ih]

/-- C10: for any fixed device tree, the discovery result is the same
whether the debug flag is set or not; the flag influences only the trace
lines. -/
theorem C10_debug_noninterference (t : DevTree) :
    (get_yubikeysDbg true t).1 = (get_yubikeysDbg false t).1 := by
  simp [get_yubikeysDbg, get_yubikeysDbgAux_fst]

end Yubiswitch
